import Mathlib

/-!
# Verification of the Tolling ALPR system core logic

Shallow embedding, in Lean 4, of the pure decision logic of the
Tolling-ALPR repository (license-plate detection / OCR / tracking),
together with proofs about it.

Conventions of the embedding:
* Python `float` confidences, coordinates and timestamps are modelled as `ℚ`
  (the properties proved are order/arithmetic properties, exact over `ℚ`).
* Python `None` becomes `Option.none`; a Python tuple bounding box becomes
  the structure `BBox` with fields `x1 y1 x2 y2 : ℤ` (the code builds the
  boxes with `map(int, xyxy)`).
* Python `dict` (insertion-ordered, iterated in insertion order) becomes an
  association list `List (Nat × VehicleTrack)`.
* OpenCV images are irrelevant to the logic proved here; an image is
  modelled as an abstract handle `Nat`.
* `time.time()` is modelled by passing the current time `now : ℚ` explicitly.
* Python's Unicode-aware `str.isalnum` / `str.upper` are embedded by
  `pyIsAlnum` / `pyUpper`: exact on ASCII and on the non-ASCII code points
  the theorems evaluate (recorded from the Unicode data CPython uses).
-/

namespace ALPR

/-! ## `config/settings.py` (class `Config`) -/

/-- `Config.OCR_CONFIDENCE_THRESHOLD = 40` (settings.py line 14). -/
def OCR_CONFIDENCE_THRESHOLD : ℚ := 40

/-- `Config.SAVE_THRESHOLD = 75.0` (settings.py line 25). -/
def SAVE_THRESHOLD : ℚ := 75

/-- `Config.LOCK_THRESHOLD = 80.0` (settings.py line 26). -/
def LOCK_THRESHOLD : ℚ := 80

/-- `Config.ROI_INTERSECTION_THRESHOLD = 0.2` (settings.py line 29). -/
def ROI_INTERSECTION_THRESHOLD : ℚ := 1/5

/-- `Config.POSITION_THRESHOLD = 100` (settings.py line 37). -/
def POSITION_THRESHOLD : ℚ := 100

/-! ## Bounding boxes -/

/-- A bounding box `(x1, y1, x2, y2)`; the detector builds these from
`map(int, xyxy)`, so coordinates are integers. -/
structure BBox where
  x1 : ℤ
  y1 : ℤ
  x2 : ℤ
  y2 : ℤ
deriving DecidableEq, Repr

/-- Center of a bounding box, `((x1+x2)/2, (y1+y2)/2)` as in
`VehicleTracker.get_track` (tracker.py line 82). -/
def BBox.center (b : BBox) : ℚ × ℚ :=
  (((b.x1 : ℚ) + b.x2) / 2, ((b.y1 : ℚ) + b.y2) / 2)

/-- Squared Euclidean distance between two points.  The source compares
`distance = (dx**2 + dy**2) ** 0.5 < POSITION_THRESHOLD`; since both sides
are nonnegative this is equivalent to comparing the squares, which is what
the embedding does (avoiding irrational square roots). -/
def distSq (p q : ℚ × ℚ) : ℚ :=
  (p.1 - q.1) ^ 2 + (p.2 - q.2) ^ 2

/-! ## `core/ocr_engine.py` — text normalization and fusion -/

/-- The action of `str.replace(old, new)` on one character, for
single-character patterns. -/
def sub (old new c : Char) : Char :=
  if c = old then new else c

/-- One `str.replace(old, new)` pass of `OCREngine._clean_text`; for
single-character patterns Python's `replace` is a per-character map. -/
def replace1 (old new : Char) (s : List Char) : List Char :=
  s.map (sub old new)

/-- Python's Unicode-aware `str.isalnum` on one character.  Exact on
ASCII (where it agrees with `Char.isAlphanum`); among non-ASCII code
points the embedding records the Unicode properties of the characters
the theorems below evaluate: the combining marks U+0308 and U+0301
(category Mn) are *not* alphanumeric, while Greek letters such as U+0390
and U+0399 are.  Other non-ASCII code points are treated as
alphanumeric; no theorem below evaluates the function there. -/
def pyIsAlnum (c : Char) : Bool :=
  if c.toNat < 128 then c.isAlphanum
  else if c.toNat = 0x308 || c.toNat = 0x301 then false
  else true

/-- Python's Unicode-aware `str.upper` on one character: the full
uppercase mapping, which may expand one character into several.  Exact
on ASCII (where it is `Char.toUpper`); among non-ASCII code points the
embedding records the special casing the theorems below evaluate:
U+0390 (GREEK SMALL LETTER IOTA WITH DIALYTIKA AND TONOS) uppercases to
the three-character sequence U+0399 U+0308 U+0301.  Other non-ASCII code
points are mapped to themselves; no theorem below evaluates the function
there. -/
def pyUpper (c : Char) : List Char :=
  if c.toNat < 128 then [c.toUpper]
  else if c.toNat = 0x390 then
    [Char.ofNat 0x399, Char.ofNat 0x308, Char.ofNat 0x301]
  else [c]

/-- `OCREngine._clean_text` (ocr_engine.py lines 97-113): keep
alphanumeric characters (`c.isalnum()`), uppercase the joined string
(`.upper()`, the character-wise full case mapping), then apply the
replacement table `0→O, 1→I, 5→S, 8→B` in that (insertion) order. -/
def clean_text (s : String) : String :=
  let cleaned := (s.data.filter pyIsAlnum).flatMap pyUpper
  let step0 := replace1 '0' 'O' cleaned
  let step1 := replace1 '1' 'I' step0
  let step5 := replace1 '5' 'S' step1
  let step8 := replace1 '8' 'B' step5
  ⟨step8⟩

/-- Recognition fusion of `OCREngine.process_plate` (ocr_engine.py lines
41-47): given the two `(text, confidence)` candidates produced by the two
engines, keep the one with higher confidence (`if conf1 > conf2`), and
normalize the winner's text. -/
def process_plate_fuse (c1 c2 : String × ℚ) : String × ℚ :=
  if c1.2 > c2.2 then (clean_text c1.1, c1.2) else (clean_text c2.1, c2.2)

/-! ## `core/tracker.py` — `VehicleTrack` -/

/-- The `VehicleTrack` dataclass (tracker.py lines 11-29), with the
defaults of the dataclass fields; `first_seen`/`last_seen` are set by
`__post_init__` from the creation time. -/
structure VehicleTrack where
  track_id : Nat
  license_plate : String := "SCANNING..."
  best_ocr_confidence : ℚ := 0
  processing_complete : Bool := false
  state : String := "TRACKING"
  last_bbox : Option BBox := none
  first_seen_bbox : Option BBox := none
  ocr_attempts : Nat := 0
  max_ocr_attempts : Nat := 2
  best_plate_image : Option Nat := none
  detection_confidence : ℚ := 0
  max_axle_count : Nat := 2
  frame_path : Option String := none
  first_seen : ℚ := 0
  last_seen : ℚ := 0
deriving Repr

/-- Construction of a fresh `VehicleTrack(track_id=...)` at time `now`
(`__post_init__` sets `first_seen = last_seen = time.time()`). -/
def newTrack (id : Nat) (now : ℚ) : VehicleTrack :=
  { track_id := id, first_seen := now, last_seen := now }

/-- `VehicleTrack.update_position` (tracker.py lines 31-40). -/
def VehicleTrack.update_position (t : VehicleTrack) (bbox : BBox)
    (dconf : ℚ) (axle_count : Nat) (now : ℚ) : VehicleTrack :=
  { t with
    first_seen_bbox := match t.first_seen_bbox with
      | none => some bbox
      | some b => some b
    last_bbox := some bbox
    last_seen := now
    detection_confidence := max t.detection_confidence dconf
    max_axle_count := max t.max_axle_count axle_count }

/-- `VehicleTrack.should_process` (tracker.py lines 42-47). -/
def VehicleTrack.should_process (t : VehicleTrack) (in_roi : Bool) : Bool :=
  if t.processing_complete || decide (t.ocr_attempts ≥ t.max_ocr_attempts) then
    false
  else
    in_roi && decide (t.detection_confidence > 1/2)

/-- `VehicleTrack.lock_plate` (tracker.py lines 68-71). -/
def VehicleTrack.lock_plate (t : VehicleTrack) : VehicleTrack :=
  { t with processing_complete := true, state := "LOCKED" }

/-- `VehicleTrack.update_plate` (tracker.py lines 49-66); returns the
Python return value paired with the mutated track. -/
def VehicleTrack.update_plate (t : VehicleTrack) (text : String)
    (confidence : ℚ) (plate_image : Option Nat) : Bool × VehicleTrack :=
  let t1 := { t with ocr_attempts := t.ocr_attempts + 1 }
  if confidence > t1.best_ocr_confidence then
    let t2 := { t1 with
      best_ocr_confidence := confidence
      license_plate := text
      best_plate_image := match plate_image with
        | some img => some img
        | none => t1.best_plate_image }
    if confidence > OCR_CONFIDENCE_THRESHOLD then
      (true, t2.lock_plate)
    else if t2.ocr_attempts ≥ t2.max_ocr_attempts then
      (false, t2.lock_plate)
    else
      (false, t2)
  else if t1.ocr_attempts ≥ t1.max_ocr_attempts then
    (false, t1.lock_plate)
  else
    (false, t1)

/-! ## `core/tracker.py` — `VehicleTracker` -/

/-- Whether a stored track matches a new detection box: the track has a
`last_bbox` (the `if track.last_bbox:` truthiness test — a 4-tuple is
always truthy, so this is a `None` test) and the center distance is below
`POSITION_THRESHOLD` (tracker.py lines 85-95, with the squared comparison
equivalent to the source's square-root one). -/
def trackMatches (bbox : BBox) (t : VehicleTrack) : Bool :=
  match t.last_bbox with
  | none => false
  | some lb => decide (distSq bbox.center lb.center < POSITION_THRESHOLD ^ 2)

/-- The loop of `VehicleTracker.get_track` (tracker.py lines 85-97): walk
the tracks in insertion order; at the first match, update the matched
track in place and return it.  Returns `none` when no track matches. -/
def matchTrack (ts : List (Nat × VehicleTrack)) (bbox : BBox) (dconf : ℚ)
    (axle_count : Nat) (now : ℚ) :
    Option (VehicleTrack × List (Nat × VehicleTrack)) :=
  match ts with
  | [] => none
  | (i, t) :: rest =>
    if trackMatches bbox t then
      let t' := t.update_position bbox dconf axle_count now
      some (t', (i, t') :: rest)
    else
      match matchTrack rest bbox dconf axle_count now with
      | some (t', rest') => some (t', (i, t) :: rest')
      | none => none

/-- `VehicleTracker` (tracker.py lines 73-76): the insertion-ordered dict
of tracks and the id counter. -/
structure VehicleTracker where
  tracks : List (Nat × VehicleTrack) := []
  next_id : Nat := 0
deriving Repr

/-- `VehicleTracker.get_track` (tracker.py lines 78-104): match the
detection to the first existing track within `POSITION_THRESHOLD`, or
create a new track with id `next_id` and bump the counter.  The
`detection_id` argument is accepted and ignored, as in the source. -/
def VehicleTracker.get_track (tr : VehicleTracker) (_detection_id : Nat)
    (bbox : BBox) (dconf : ℚ) (axle_count : Nat) (now : ℚ) :
    VehicleTrack × VehicleTracker :=
  match matchTrack tr.tracks bbox dconf axle_count now with
  | some (t, ts) => (t, { tr with tracks := ts })
  | none =>
    let t := (newTrack tr.next_id now).update_position bbox dconf axle_count now
    (t, { tracks := tr.tracks ++ [(tr.next_id, t)], next_id := tr.next_id + 1 })

/-- `VehicleTracker.cleanup_old_tracks` (tracker.py lines 106-117): evict
tracks older than `max_age`, and completed tracks older than 1 second. -/
def VehicleTracker.cleanup_old_tracks (tr : VehicleTracker) (now : ℚ)
    (max_age : ℚ) : VehicleTracker :=
  { tr with tracks := tr.tracks.filter fun e =>
      !(decide (now - e.2.last_seen > max_age) ||
        (e.2.processing_complete && decide (now - e.2.last_seen > 1))) }

/-- Write a mutated track back into the registry (Python mutates the
object held by the dict in place; ids are unique, so replacing the entry
with the track's id models that mutation). -/
def VehicleTracker.setTrack (tr : VehicleTracker) (t : VehicleTrack) :
    VehicleTracker :=
  { tr with tracks := tr.tracks.map fun e =>
      if e.1 = t.track_id then (e.1, t) else e }

/-! ## `utils/roi_utils.py` — `ROIManager.calculate_intersection` -/

/-- `ROIManager.calculate_intersection` (roi_utils.py lines 74-112): with
no ROI configured the result is 0; otherwise clip, and when the clip
rectangle is nonempty return `intersection_area / bbox_area` (the source
also computes `roi_area`, which it never uses).  The ROI is `Option BBox`
(`self.roi` is `None` until configured). -/
def calculate_intersection (roi : Option BBox) (bbox : BBox) : ℚ :=
  match roi with
  | none => 0
  | some r =>
    let bbox_area : ℚ := ((bbox.x2 - bbox.x1) * (bbox.y2 - bbox.y1) : ℤ)
    let x1 := max r.x1 bbox.x1
    let y1 := max r.y1 bbox.y1
    let x2 := min r.x2 bbox.x2
    let y2 := min r.y2 bbox.y2
    if x1 < x2 ∧ y1 < y2 then
      (((x2 - x1) * (y2 - y1) : ℤ) : ℚ) / bbox_area
    else 0

/-- The spec's formula for the area of the geometric intersection of two
axis-aligned rectangles (the quantity `area(intersection(roi, bbox))`
named by the specification; used to compare the code against the spec). -/
def specInterArea (r b : BBox) : ℚ :=
  ((max 0 (min r.x2 b.x2 - max r.x1 b.x1) * max 0 (min r.y2 b.y2 - max r.y1 b.y1) : ℤ) : ℚ)

/-! ## `core/detector.py` — `VehicleDetector.assign_wheels_to_vehicle` -/

/-- A wheel detection; only its bounding box is read by the axle logic. -/
structure Wheel where
  bbox : BBox
deriving Repr

/-- The inner `for group in axle_groups` loop of
`assign_wheels_to_vehicle` (detector.py lines 61-68): append the wheel
center to the first group whose mean y-coordinate is within `maxDist`,
or report failure. -/
def tryAddToGroup (groups : List (List (ℚ × ℚ))) (wc : ℚ × ℚ) (maxDist : ℚ) :
    Option (List (List (ℚ × ℚ))) :=
  match groups with
  | [] => none
  | g :: gs =>
    let group_y := (g.map Prod.snd).sum / (g.length : ℚ)
    if |wc.2 - group_y| < maxDist then
      some ((g ++ [wc]) :: gs)
    else
      match tryAddToGroup gs wc maxDist with
      | some gs' => some (g :: gs')
      | none => none

/-- `VehicleDetector.assign_wheels_to_vehicle` (detector.py lines 30-88):
estimate the vehicle extent from the plate box, group the in-bounds wheel
centers into axles by vertical position, and clamp the axle count to
[2, 8]. -/
def assign_wheels_to_vehicle (plate_bbox : BBox) (wheels : List Wheel) : Nat :=
  let plate_center_x := ((plate_bbox.x1 : ℚ) + plate_bbox.x2) / 2
  let plate_y : ℚ := (plate_bbox.y1 : ℚ)
  let plate_height : ℚ := (plate_bbox.y2 : ℚ) - (plate_bbox.y1 : ℚ)
  let vehicle_width := ((plate_bbox.x2 : ℚ) - (plate_bbox.x1 : ℚ)) * 6
  let vehicle_left := max 0 (plate_center_x - vehicle_width / 2)
  let vehicle_right := plate_center_x + vehicle_width / 2
  let maxDist := plate_height * (1/2)
  let axle_groups := wheels.foldl
    (fun gs w =>
      let wc := w.bbox.center
      if wc.2 > plate_y ∧ vehicle_left ≤ wc.1 ∧ wc.1 ≤ vehicle_right then
        match tryAddToGroup gs wc maxDist with
        | some gs' => gs'
        | none => gs ++ [[wc]]
      else gs)
    []
  let num_axles := (axle_groups.filter fun g => decide (g.length ≥ 1)).length
  min (max 2 num_axles) 8

/-! ## `web/backend/main.py` — the per-detection step of
`VideoCamera.get_frame` (lines 66-106)

The step is driven by external components (YOLO, OpenCV extraction, the
two OCR engines, the image store); those appear as oracle inputs:
`extracted` is `VehicleDetector.extract_plate`'s result (`none` = `None`),
`(ocrText, ocrConf)` is `OCREngine.process_plate`'s result, and `saved` is
`image_manager.save_image`'s result.  The output records the tracker after
the step and the persistence event (`db_manager.add_vehicle_detection`
upsert, which is also the precondition of the broadcast) if one occurred. -/

/-- The row written by `db_manager.add_vehicle_detection` (main.py lines
98-104). -/
structure PersistEvent where
  track_id : Nat
  license_plate : String
  confidence : ℚ
  axle_count : Nat
deriving Repr

/-- One iteration of the `for detection in detections` loop of
`VideoCamera.get_frame` (main.py lines 66-106) on a `license_plate`
detection. -/
def process_detection (tr : VehicleTracker) (roi : Option BBox)
    (detection_id : Nat) (bbox : BBox) (detection_confidence : ℚ)
    (axle_count : Nat) (extracted : Option Nat) (ocrText : String)
    (ocrConf : ℚ) (saved : Option String) (now : ℚ) :
    VehicleTracker × Option PersistEvent :=
  let p := tr.get_track detection_id bbox detection_confidence axle_count now
  let track := p.1
  let tr1 := p.2
  let intersection := calculate_intersection roi bbox
  let in_roi := decide (intersection > ROI_INTERSECTION_THRESHOLD)
  if track.should_process in_roi then
    match extracted with
    | none => (tr1, none)
    | some img =>
      if ocrText ≠ "" ∧ ocrConf > 0 then
        let q := track.update_plate ocrText ocrConf (some img)
        let track' := q.2
        if q.1 then
          match saved with
          | some fp =>
            let track'' := { track' with frame_path := some fp }
            (tr1.setTrack track'',
             some ⟨track''.track_id, ocrText, ocrConf, axle_count⟩)
          | none => (tr1.setTrack track', none)
        else (tr1.setTrack track', none)
      else (tr1, none)
  else (tr1, none)

/-! ## Helper lemmas -/

/-- `update_plate` returns `True` exactly when the new confidence strictly
beats both the stored best and `OCR_CONFIDENCE_THRESHOLD`. -/
theorem update_plate_fst_iff (t : VehicleTrack) (text : String) (conf : ℚ)
    (img : Option Nat) :
    (t.update_plate text conf img).1 = true ↔
      conf > t.best_ocr_confidence ∧ conf > OCR_CONFIDENCE_THRESHOLD := by
  by_cases hb : conf > t.best_ocr_confidence
  · by_cases h40 : conf > OCR_CONFIDENCE_THRESHOLD
    · simp [VehicleTrack.update_plate, hb, h40]
    · by_cases hm : t.ocr_attempts + 1 ≥ t.max_ocr_attempts <;>
        simp [VehicleTrack.update_plate, hb, h40, hm]
  · by_cases hm : t.ocr_attempts + 1 ≥ t.max_ocr_attempts <;>
      simp [VehicleTrack.update_plate, hb, hm]

/-- Field-level description of one `update_plate` call. -/
theorem update_plate_fields (t : VehicleTrack) (text : String) (conf : ℚ)
    (img : Option Nat) :
    ((t.update_plate text conf img).2.ocr_attempts = t.ocr_attempts + 1) ∧
    ((t.update_plate text conf img).2.max_ocr_attempts = t.max_ocr_attempts) ∧
    ((t.update_plate text conf img).2.best_ocr_confidence =
      max t.best_ocr_confidence conf) ∧
    (((t.update_plate text conf img).2.license_plate = t.license_plate ∧
        (t.update_plate text conf img).2.best_ocr_confidence =
          t.best_ocr_confidence) ∨
      ((t.update_plate text conf img).2.license_plate = text ∧
        (t.update_plate text conf img).2.best_ocr_confidence = conf ∧
        t.best_ocr_confidence < conf)) := by
  by_cases hb : conf > t.best_ocr_confidence
  · have hmax : max t.best_ocr_confidence conf = conf := max_eq_right (le_of_lt hb)
    by_cases h40 : conf > OCR_CONFIDENCE_THRESHOLD
    · simp [VehicleTrack.update_plate, VehicleTrack.lock_plate, hb, h40, hmax]
    · by_cases hm : t.ocr_attempts + 1 ≥ t.max_ocr_attempts <;>
        simp [VehicleTrack.update_plate, VehicleTrack.lock_plate, hb, h40, hm, hmax]
  · have hmax : max t.best_ocr_confidence conf = t.best_ocr_confidence :=
      max_eq_left (not_lt.mp hb)
    by_cases hm : t.ocr_attempts + 1 ≥ t.max_ocr_attempts <;>
      simp [VehicleTrack.update_plate, VehicleTrack.lock_plate, hb, hm, hmax]

/-- A sub-threshold call that reaches the attempt cap locks the track. -/
theorem update_plate_subthreshold_lock (t : VehicleTrack) (text : String)
    (conf : ℚ) (img : Option Nat) (h40 : conf < OCR_CONFIDENCE_THRESHOLD)
    (hm : t.ocr_attempts + 1 ≥ t.max_ocr_attempts) :
    (t.update_plate text conf img).2.processing_complete = true ∧
    (t.update_plate text conf img).2.state = "LOCKED" := by
  have h40' : ¬ conf > OCR_CONFIDENCE_THRESHOLD := not_lt.mpr (le_of_lt h40)
  by_cases hb : conf > t.best_ocr_confidence <;>
    simp [VehicleTrack.update_plate, VehicleTrack.lock_plate, hb, h40', hm]

/-! ## Claim theorems -/

/-- C8: `assign_wheels_to_vehicle` always returns an axle count in the
inclusive range [2, 8], for any plate box and any (possibly empty) wheel
list. -/
theorem assign_wheels_range (plate_bbox : BBox) (wheels : List Wheel) :
    2 ≤ assign_wheels_to_vehicle plate_bbox wheels ∧
    assign_wheels_to_vehicle plate_bbox wheels ≤ 8 := by
  simp only [assign_wheels_to_vehicle]
  omega

/-- C5: for a track in state `TRACKING`, an `update_plate` call whose
confidence strictly exceeds both the current `best_ocr_confidence` and the
lock threshold (`LOCK_THRESHOLD = 80`) locks the track on that single
call — whatever `max_ocr_attempts` and `ocr_attempts` are — and returns
`True`.  (The code's comparison uses `OCR_CONFIDENCE_THRESHOLD = 40`,
which any confidence above 80 also exceeds.) -/
theorem update_plate_locks_immediately (t : VehicleTrack) (text : String)
    (conf : ℚ) (img : Option Nat) (hs : t.state = "TRACKING")
    (hb : conf > t.best_ocr_confidence) (hl : conf > LOCK_THRESHOLD) :
    (t.update_plate text conf img).1 = true ∧
    (t.update_plate text conf img).2.state = "LOCKED" ∧
    (t.update_plate text conf img).2.processing_complete = true := by
  have h40 : conf > OCR_CONFIDENCE_THRESHOLD := by
    have : OCR_CONFIDENCE_THRESHOLD < LOCK_THRESHOLD := by
      norm_num [OCR_CONFIDENCE_THRESHOLD, LOCK_THRESHOLD]
    exact lt_trans this hl
  simp [VehicleTrack.update_plate, VehicleTrack.lock_plate, hb, h40]

/-- Witness for C5: a first call with confidence 85 (above the lock
threshold 80) on a fresh track locks it immediately. -/
theorem update_plate_locks_immediately_witness :
    ((newTrack 0 0).update_plate "ABC123" 85 none).1 = true ∧
    ((newTrack 0 0).update_plate "ABC123" 85 none).2.state = "LOCKED" ∧
    ((newTrack 0 0).update_plate "ABC123" 85 none).2.processing_complete = true :=
  update_plate_locks_immediately (newTrack 0 0) "ABC123" 85 none rfl
    (by norm_num [newTrack]) (by norm_num [LOCK_THRESHOLD])

/-- C7: for every configured ROI and every bounding box with positive
extent, `calculate_intersection` equals `area(intersection) / area(bbox)`
and lies in [0, 1]; it is 0 without a configured ROI; and on
ROI = (0,0,100,100), bbox = (90,90,150,150) it evaluates to 100/3600,
below the 0.2 gate. -/
theorem calculate_intersection_spec (r b : BBox)
    (hx : b.x1 < b.x2) (hy : b.y1 < b.y2) :
    (calculate_intersection (some r) b =
      specInterArea r b / (((b.x2 - b.x1) * (b.y2 - b.y1) : ℤ) : ℚ)) ∧
    0 ≤ calculate_intersection (some r) b ∧
    calculate_intersection (some r) b ≤ 1 ∧
    calculate_intersection none b = 0 ∧
    calculate_intersection (some ⟨0, 0, 100, 100⟩) ⟨90, 90, 150, 150⟩ = 100 / 3600 ∧
    (100 : ℚ) / 3600 < ROI_INTERSECTION_THRESHOLD := by
  have hbx : (0 : ℚ) < ((b.x2 - b.x1 : ℤ) : ℚ) := by exact_mod_cast sub_pos.mpr hx
  have hby : (0 : ℚ) < ((b.y2 - b.y1 : ℤ) : ℚ) := by exact_mod_cast sub_pos.mpr hy
  have hA : (0 : ℚ) < (((b.x2 - b.x1) * (b.y2 - b.y1) : ℤ) : ℚ) := by
    push_cast
    push_cast at hbx hby
    exact mul_pos hbx hby
  refine ⟨?_, ?_, ?_, rfl, by norm_num [calculate_intersection], by
    norm_num [ROI_INTERSECTION_THRESHOLD]⟩
  · by_cases h : max r.x1 b.x1 < min r.x2 b.x2 ∧ max r.y1 b.y1 < min r.y2 b.y2
    · have hw : max 0 (min r.x2 b.x2 - max r.x1 b.x1) =
          min r.x2 b.x2 - max r.x1 b.x1 := max_eq_right (by omega)
      have hh : max 0 (min r.y2 b.y2 - max r.y1 b.y1) =
          min r.y2 b.y2 - max r.y1 b.y1 := max_eq_right (by omega)
      simp only [calculate_intersection, specInterArea, if_pos h, hw, hh]
    · have hz : max 0 (min r.x2 b.x2 - max r.x1 b.x1) *
          max 0 (min r.y2 b.y2 - max r.y1 b.y1) = 0 := by
        rcases not_and_or.mp h with h1 | h1
        · have : max 0 (min r.x2 b.x2 - max r.x1 b.x1) = 0 := max_eq_left (by omega)
          rw [this, zero_mul]
        · have : max 0 (min r.y2 b.y2 - max r.y1 b.y1) = 0 := max_eq_left (by omega)
          rw [this, mul_zero]
      simp only [calculate_intersection, specInterArea, if_neg h, hz,
        Int.cast_zero, zero_div]
  · simp only [calculate_intersection]
    split
    · rename_i hcond
      apply div_nonneg _ (le_of_lt hA)
      have h3 : (0 : ℤ) ≤ (min r.x2 b.x2 - max r.x1 b.x1) *
          (min r.y2 b.y2 - max r.y1 b.y1) := by
        have hc1 := hcond.1
        have hc2 := hcond.2
        exact mul_nonneg (by omega) (by omega)
      exact_mod_cast h3
    · exact le_refl 0
  · simp only [calculate_intersection]
    split
    · rename_i hcond
      rw [div_le_one hA]
      have h1 : min r.x2 b.x2 - max r.x1 b.x1 ≤ b.x2 - b.x1 := by omega
      have h2 : min r.y2 b.y2 - max r.y1 b.y1 ≤ b.y2 - b.y1 := by omega
      have h3 : (0 : ℤ) < min r.x2 b.x2 - max r.x1 b.x1 := by omega
      have h4 : (0 : ℤ) < min r.y2 b.y2 - max r.y1 b.y1 := by omega
      have : (min r.x2 b.x2 - max r.x1 b.x1) * (min r.y2 b.y2 - max r.y1 b.y1) ≤
          (b.x2 - b.x1) * (b.y2 - b.y1) :=
        mul_le_mul h1 h2 (le_of_lt h4) (by omega)
      exact_mod_cast this
    · norm_num

/-- Witness for C7 at the spec's own example rectangles. -/
theorem calculate_intersection_spec_witness :
    ((90 : ℤ) < 150 ∧ (90 : ℤ) < 150) ∧
    calculate_intersection (some ⟨0, 0, 100, 100⟩) ⟨90, 90, 150, 150⟩ =
      specInterArea ⟨0, 0, 100, 100⟩ ⟨90, 90, 150, 150⟩ /
        ((((150 : ℤ) - 90) * (150 - 90) : ℤ) : ℚ) :=
  ⟨⟨by norm_num, by norm_num⟩,
    (calculate_intersection_spec ⟨0, 0, 100, 100⟩ ⟨90, 90, 150, 150⟩
      (by norm_num) (by norm_num)).1⟩

/-! ### C9: idempotence of `_clean_text` -/

/-- The per-character action of `clean_text` on ASCII characters after
the alphanumeric filter: uppercase, then the four confusable
substitutions in table order. -/
def normChar (c : Char) : Char :=
  sub '8' 'B' (sub '5' 'S' (sub '1' 'I' (sub '0' 'O' c.toUpper)))

/-- On ASCII characters Python's `isalnum` is `Char.isAlphanum`. -/
theorem pyIsAlnum_ascii (c : Char) (h : c.toNat < 128) :
    pyIsAlnum c = c.isAlphanum := by
  simp [pyIsAlnum, h]

/-- On a list of ASCII characters, uppercasing by the full case mapping
is the plain per-character `Char.toUpper` map. -/
theorem flatMap_pyUpper_ascii (l : List Char) (h : ∀ c ∈ l, c.toNat < 128) :
    l.flatMap pyUpper = l.map Char.toUpper := by
  induction l with
  | nil => rfl
  | cons c cs ih =>
    have hc : c.toNat < 128 := h c (List.mem_cons_self _ _)
    have hcs : ∀ x ∈ cs, x.toNat < 128 := fun x hx => h x (List.mem_cons_of_mem _ hx)
    simp [List.flatMap_cons, pyUpper, hc, ih hcs]

/-- On an ASCII string, `clean_text` is the alphanumeric filter followed
by the per-character map `normChar` (the four `replace` passes fused). -/
theorem clean_text_eq_map_of_ascii (s : String)
    (h : ∀ c ∈ s.data, c.toNat < 128) :
    clean_text s = ⟨(s.data.filter Char.isAlphanum).map normChar⟩ := by
  simp only [clean_text, replace1]
  rw [List.filter_congr fun c hc => pyIsAlnum_ascii c (h c hc),
    flatMap_pyUpper_ascii (s.data.filter Char.isAlphanum)
      (fun c hc => h c (List.mem_of_mem_filter hc))]
  simp only [List.map_map]
  refine congrArg String.mk ?_
  apply List.map_congr_left
  intro c _
  simp only [Function.comp_apply, normChar]

/-- An alphanumeric character has code point below 123 (`'z'` is 122). -/
theorem isAlphanum_toNat_lt (c : Char) (h : c.isAlphanum = true) :
    c.toNat < 123 := by
  simp [Char.isAlphanum, Char.isAlpha, Char.isDigit, Char.isUpper,
    Char.isLower, Char.le_def] at h
  have key : ∀ b : UInt32, c.val ≤ b → c.val.toNat ≤ b.toNat := fun _ hab => hab
  have e90 : (90 : UInt32).toNat = 90 := rfl
  have e122 : (122 : UInt32).toNat = 122 := rfl
  have e57 : (57 : UInt32).toNat = 57 := rfl
  rcases h with (⟨_, h2⟩ | ⟨_, h2⟩) | ⟨_, h2⟩ <;> have := key _ h2 <;>
    simp only [Char.toNat] <;> omega

set_option maxHeartbeats 2000000 in
/-- Exhaustive check of the two key per-character facts on the code
points that can be alphanumeric. -/
theorem normChar_bounded : ∀ n : Nat, n < 123 →
    (Char.ofNat n).isAlphanum = true →
    (normChar (Char.ofNat n)).isAlphanum = true ∧
    normChar (normChar (Char.ofNat n)) = normChar (Char.ofNat n) := by
  decide

/-- On alphanumeric characters, `normChar` produces an alphanumeric
character and is idempotent. -/
theorem normChar_good (c : Char) (h : c.isAlphanum = true) :
    (normChar c).isAlphanum = true ∧ normChar (normChar c) = normChar c := by
  have hb := isAlphanum_toNat_lt c h
  have h2 := normChar_bounded c.toNat hb
  rw [Char.ofNat_toNat] at h2
  exact h2 h

set_option maxHeartbeats 1000000 in
/-- `normChar` keeps ASCII characters ASCII (exhaustive check). -/
theorem normChar_ascii_bounded : ∀ n : Nat, n < 128 →
    (normChar (Char.ofNat n)).toNat < 128 := by
  decide

/-- ASCII closure of `normChar`, at the `Char` level. -/
theorem normChar_ascii (c : Char) (h : c.toNat < 128) :
    (normChar c).toNat < 128 := by
  have h2 := normChar_ascii_bounded c.toNat h
  rwa [Char.ofNat_toNat] at h2

set_option maxHeartbeats 1000000 in
/-- C9 counterexample: normalization is not idempotent on the program's
actual (Unicode) string domain.  `'ΐ'` (U+0390) is alphanumeric and
uppercases to the three-character sequence U+0399 U+0308 U+0301; the
combining marks U+0308 and U+0301 are not alphanumeric, so a second
normalization pass strips them, giving a different string. -/
theorem clean_text_unicode_counterexample :
    clean_text (String.mk [Char.ofNat 0x390]) =
      String.mk [Char.ofNat 0x399, Char.ofNat 0x308, Char.ofNat 0x301] ∧
    clean_text (clean_text (String.mk [Char.ofNat 0x390])) =
      String.mk [Char.ofNat 0x399] ∧
    clean_text (clean_text (String.mk [Char.ofNat 0x390])) ≠
      clean_text (String.mk [Char.ofNat 0x390]) := by
  refine ⟨?_, ?_, ?_⟩ <;> decide

/-- C9 (amended): text normalization is idempotent on ASCII input — for
every string of characters with code points below 128, normalizing an
already-normalized string returns it unchanged.  (On full Unicode it is
not: see the counterexample at U+0390.) -/
theorem clean_text_idempotent_ascii (s : String)
    (h : ∀ c ∈ s.data, c.toNat < 128) :
    clean_text (clean_text s) = clean_text s := by
  have h1 := clean_text_eq_map_of_ascii s h
  have hasc : ∀ c ∈ (s.data.filter Char.isAlphanum).map normChar,
      c.toNat < 128 := by
    intro c hc
    rcases List.mem_map.mp hc with ⟨d, hd, rfl⟩
    exact normChar_ascii d (h d (List.mem_of_mem_filter hd))
  have h2 := clean_text_eq_map_of_ascii
    ⟨(s.data.filter Char.isAlphanum).map normChar⟩ (by simpa using hasc)
  rw [h1, h2]
  refine congrArg String.mk ?_
  have hmem : ∀ x ∈ (s.data.filter Char.isAlphanum).map normChar,
      x.isAlphanum = true := by
    intro x hx
    rcases List.mem_map.mp hx with ⟨c, hc, rfl⟩
    exact (normChar_good c (List.of_mem_filter hc)).1
  rw [show (String.mk ((s.data.filter Char.isAlphanum).map normChar)).data =
      (s.data.filter Char.isAlphanum).map normChar from rfl]
  rw [List.filter_eq_self.mpr hmem, List.map_map]
  apply List.map_congr_left
  intro c hc
  simp only [Function.comp_apply]
  exact (normChar_good c (List.of_mem_filter hc)).2

/-- Witness for C9 (amended) on a concrete ASCII string. -/
theorem clean_text_idempotent_ascii_witness :
    (∀ c ∈ ("a0b5!".data), c.toNat < 128) ∧
    clean_text (clean_text "a0b5!") = clean_text "a0b5!" :=
  ⟨by decide, clean_text_idempotent_ascii "a0b5!" (by decide)⟩

/-! ### C1: recognition fusion tie-breaking -/

set_option maxHeartbeats 2000000 in
/-- C1 counterexample: on equal confidences the fusion of
`process_plate` keeps the *second* candidate, not the first — with both
candidates at confidence 50, the result is the normalized second text
`"BI"`, not the normalized first text `"AO"`. -/
theorem process_plate_fuse_tie_counterexample :
    process_plate_fuse ("A0", 50) ("B1", 50) ≠ (clean_text "A0", 50) := by
  decide

/-- C1 (amended): fusion selects the candidate with strictly higher
confidence, and on equal confidences it selects the *second* candidate;
normalization is applied to the winner's text only, by the same
`clean_text`, whichever engine won. -/
theorem process_plate_fuse_amended (t1 t2 : String) (c1 c2 : ℚ) :
    (c1 > c2 → process_plate_fuse (t1, c1) (t2, c2) = (clean_text t1, c1)) ∧
    (c1 ≤ c2 → process_plate_fuse (t1, c1) (t2, c2) = (clean_text t2, c2)) := by
  constructor
  · intro h
    simp [process_plate_fuse, h]
  · intro h
    simp [process_plate_fuse, not_lt.mpr h]

/-- Witness for C1 (amended), on a strict win for the first engine and a
tie going to the second engine. -/
theorem process_plate_fuse_amended_witness :
    ((60 : ℚ) > 50 ∧
      process_plate_fuse ("A0", 60) ("B1", 50) = (clean_text "A0", 60)) ∧
    ((50 : ℚ) ≤ 50 ∧
      process_plate_fuse ("A0", 50) ("B1", 50) = (clean_text "B1", 50)) :=
  ⟨⟨by norm_num,
      (process_plate_fuse_amended "A0" "B1" 60 50).1 (by norm_num)⟩,
    ⟨le_refl 50,
      (process_plate_fuse_amended "A0" "B1" 50 50).2 (le_refl 50)⟩⟩

/-! ### C2: what may change on a LOCKED track -/

/-- A locked track with a recorded position, as left behind by
`lock_plate` after tracking: used to exhibit that registry matching still
moves its bounding box. -/
def lockedTrackExample : VehicleTrack :=
  { newTrack 0 0 with
    last_bbox := some ⟨0, 0, 10, 10⟩
    license_plate := "XYZ789"
    best_ocr_confidence := 90
    detection_confidence := 9/10
    processing_complete := true
    state := "LOCKED" }

/-- C2 counterexample: matching a nearby detection to a LOCKED track
changes its `last_bbox` (and its `detection_confidence` grows), so fields
other than `last_seen` do change after locking. -/
theorem locked_track_mutation_counterexample :
    lockedTrackExample.state = "LOCKED" ∧
    ((VehicleTracker.mk [(0, lockedTrackExample)] 1).get_track 0
        ⟨2, 2, 12, 12⟩ (95/100) 2 5).1.last_bbox ≠ lockedTrackExample.last_bbox ∧
    ((VehicleTracker.mk [(0, lockedTrackExample)] 1).get_track 0
        ⟨2, 2, 12, 12⟩ (95/100) 2 5).1.detection_confidence ≠
      lockedTrackExample.detection_confidence := by
  refine ⟨rfl, ?_, ?_⟩ <;>
    norm_num [VehicleTracker.get_track, matchTrack, trackMatches, distSq,
      BBox.center, VehicleTrack.update_position, POSITION_THRESHOLD,
      lockedTrackExample, newTrack]

/-- C2 (amended): after a track locks, `update_position` (hence registry
matching) still refreshes `last_seen`, `last_bbox`,
`detection_confidence` and `max_axle_count`; but it never touches the
recognition outcome (`license_plate`, `best_ocr_confidence`,
`best_plate_image`), never leaves the `LOCKED` state, and never resets
`processing_complete` or `ocr_attempts`; the orchestrator cannot run
another recognition on it because `should_process` is `false` for a
completed track; and eviction only removes entries, never alters one. -/
theorem locked_track_amended :
    (∀ (t : VehicleTrack) (bbox : BBox) (dconf : ℚ) (now : ℚ)
        (axle_count : Nat),
      t.state = "LOCKED" →
      (t.update_position bbox dconf axle_count now).license_plate =
          t.license_plate ∧
      (t.update_position bbox dconf axle_count now).best_ocr_confidence =
          t.best_ocr_confidence ∧
      (t.update_position bbox dconf axle_count now).best_plate_image =
          t.best_plate_image ∧
      (t.update_position bbox dconf axle_count now).state = "LOCKED" ∧
      (t.update_position bbox dconf axle_count now).processing_complete =
          t.processing_complete ∧
      (t.update_position bbox dconf axle_count now).ocr_attempts =
          t.ocr_attempts) ∧
    (∀ (t : VehicleTrack) (in_roi : Bool),
      t.processing_complete = true → t.should_process in_roi = false) ∧
    (∀ (tr : VehicleTracker) (now age : ℚ) (e : Nat × VehicleTrack),
      e ∈ (tr.cleanup_old_tracks now age).tracks → e ∈ tr.tracks) := by
  refine ⟨?_, ?_, ?_⟩
  · intro t bbox dconf now axle_count hs
    simp [VehicleTrack.update_position, hs]
  · intro t in_roi hc
    simp [VehicleTrack.should_process, hc]
  · intro tr now age e he
    exact List.mem_of_mem_filter he

/-- Witness for C2 (amended) on the concrete locked track. -/
theorem locked_track_amended_witness :
    (lockedTrackExample.state = "LOCKED" ∧
      (lockedTrackExample.update_position ⟨2, 2, 12, 12⟩ (95/100) 2 5).license_plate =
        lockedTrackExample.license_plate) ∧
    (lockedTrackExample.processing_complete = true ∧
      lockedTrackExample.should_process true = false) :=
  ⟨⟨rfl, (locked_track_amended.1 lockedTrackExample ⟨2, 2, 12, 12⟩ (95/100)
      5 2 rfl).1⟩,
    ⟨rfl, locked_track_amended.2.1 lockedTrackExample true rfl⟩⟩

/-! ### C4: registry matching and id freshness -/

/-- If no stored track matches the detection, the `get_track` loop finds
nothing. -/
theorem matchTrack_eq_none (ts : List (Nat × VehicleTrack)) (bbox : BBox)
    (dconf : ℚ) (axle_count : Nat) (now : ℚ)
    (h : ∀ e ∈ ts, trackMatches bbox e.2 = false) :
    matchTrack ts bbox dconf axle_count now = none := by
  induction ts with
  | nil => rfl
  | cons a rest ih =>
    obtain ⟨i, t⟩ := a
    have ht : trackMatches bbox t = false := h (i, t) (List.mem_cons_self _ _)
    have hr : matchTrack rest bbox dconf axle_count now = none :=
      ih fun e he => h e (List.mem_cons_of_mem _ he)
    simp [matchTrack, ht, hr]

/-- If the first matching stored track (in iteration order) is `e`, the
`get_track` loop returns exactly `e`'s track updated in place, and the
registry keeps the same ids in the same order. -/
theorem matchTrack_eq_some (ts : List (Nat × VehicleTrack)) (bbox : BBox)
    (dconf : ℚ) (axle_count : Nat) (now : ℚ) (e : Nat × VehicleTrack)
    (h : ts.find? (fun x => trackMatches bbox x.2) = some e) :
    ∃ ts', matchTrack ts bbox dconf axle_count now =
        some (e.2.update_position bbox dconf axle_count now, ts') ∧
      ts'.map Prod.fst = ts.map Prod.fst := by
  induction ts with
  | nil => simp at h
  | cons a rest ih =>
    obtain ⟨i, t⟩ := a
    by_cases ha : trackMatches bbox t
    · have ha' : (fun x : Nat × VehicleTrack => trackMatches bbox x.2) (i, t) = true := ha
      rw [@List.find?_cons_of_pos _ (fun x : Nat × VehicleTrack => trackMatches bbox x.2)
        (i, t) rest ha'] at h
      obtain rfl : (i, t) = e := Option.some.injEq .. ▸ h
      exact ⟨(i, t.update_position bbox dconf axle_count now) :: rest,
        by simp [matchTrack, ha], by simp⟩
    · have ha' : ¬ (fun x : Nat × VehicleTrack => trackMatches bbox x.2) (i, t) = true := by
        simpa using ha
      rw [@List.find?_cons_of_neg _ (fun x : Nat × VehicleTrack => trackMatches bbox x.2)
        (i, t) rest ha'] at h
      obtain ⟨ts', h1, h2⟩ := ih h
      refine ⟨(i, t) :: ts', ?_, by simp [h2]⟩
      simp [matchTrack, ha, h1]

/-- C4: `get_track` returns the first stored track whose last box center
is within `POSITION_THRESHOLD` of the detection center, updating it and
creating nothing; with no such track it creates a fresh track carrying
the id `next_id` and increments the counter, so ids are strictly
increasing, never reused — even after eviction. -/
theorem get_track_spec :
    (∀ (tr : VehicleTracker) (did : Nat) (bbox : BBox) (dconf : ℚ)
        (axle_count : Nat) (now : ℚ) (e : Nat × VehicleTrack),
      tr.tracks.find? (fun x => trackMatches bbox x.2) = some e →
      (tr.get_track did bbox dconf axle_count now).1 =
          e.2.update_position bbox dconf axle_count now ∧
      (tr.get_track did bbox dconf axle_count now).2.next_id = tr.next_id ∧
      (tr.get_track did bbox dconf axle_count now).2.tracks.map Prod.fst =
          tr.tracks.map Prod.fst) ∧
    (∀ (tr : VehicleTracker) (did : Nat) (bbox : BBox) (dconf : ℚ)
        (axle_count : Nat) (now : ℚ),
      tr.tracks.find? (fun x => trackMatches bbox x.2) = none →
      (tr.get_track did bbox dconf axle_count now).1.track_id = tr.next_id ∧
      (tr.get_track did bbox dconf axle_count now).2.next_id = tr.next_id + 1 ∧
      (tr.get_track did bbox dconf axle_count now).2.tracks.map Prod.fst =
          tr.tracks.map Prod.fst ++ [tr.next_id]) ∧
    (∀ tr : VehicleTracker,
      (∀ i ∈ tr.tracks.map Prod.fst, i < tr.next_id) →
      tr.next_id ∉ tr.tracks.map Prod.fst) ∧
    (∀ (tr : VehicleTracker) (did : Nat) (bbox : BBox) (dconf : ℚ)
        (axle_count : Nat) (now : ℚ),
      (∀ i ∈ tr.tracks.map Prod.fst, i < tr.next_id) →
      ∀ i ∈ (tr.get_track did bbox dconf axle_count now).2.tracks.map Prod.fst,
        i < (tr.get_track did bbox dconf axle_count now).2.next_id) ∧
    (∀ (tr : VehicleTracker) (now age : ℚ),
      (∀ i ∈ tr.tracks.map Prod.fst, i < tr.next_id) →
      ∀ i ∈ (tr.cleanup_old_tracks now age).tracks.map Prod.fst,
        i < (tr.cleanup_old_tracks now age).next_id) := by
  have hsome : ∀ (tr : VehicleTracker) (did : Nat) (bbox : BBox) (dconf : ℚ)
      (axle_count : Nat) (now : ℚ) (e : Nat × VehicleTrack),
      tr.tracks.find? (fun x => trackMatches bbox x.2) = some e →
      (tr.get_track did bbox dconf axle_count now).1 =
          e.2.update_position bbox dconf axle_count now ∧
      (tr.get_track did bbox dconf axle_count now).2.next_id = tr.next_id ∧
      (tr.get_track did bbox dconf axle_count now).2.tracks.map Prod.fst =
          tr.tracks.map Prod.fst := by
    intro tr did bbox dconf axle_count now e h
    obtain ⟨ts', h1, h2⟩ := matchTrack_eq_some tr.tracks bbox dconf axle_count now e h
    simp [VehicleTracker.get_track, h1, h2]
  have hnone : ∀ (tr : VehicleTracker) (did : Nat) (bbox : BBox) (dconf : ℚ)
      (axle_count : Nat) (now : ℚ),
      tr.tracks.find? (fun x => trackMatches bbox x.2) = none →
      (tr.get_track did bbox dconf axle_count now).1.track_id = tr.next_id ∧
      (tr.get_track did bbox dconf axle_count now).2.next_id = tr.next_id + 1 ∧
      (tr.get_track did bbox dconf axle_count now).2.tracks.map Prod.fst =
          tr.tracks.map Prod.fst ++ [tr.next_id] := by
    intro tr did bbox dconf axle_count now h
    have h' : ∀ e ∈ tr.tracks, trackMatches bbox e.2 = false := by
      intro e he
      have := List.find?_eq_none.mp h e he
      simpa using this
    have h1 := matchTrack_eq_none tr.tracks bbox dconf axle_count now h'
    simp [VehicleTracker.get_track, h1, newTrack, VehicleTrack.update_position]
  refine ⟨hsome, hnone, ?_, ?_, ?_⟩
  · intro tr hub hmem
    exact absurd (hub _ hmem) (lt_irrefl _)
  · intro tr did bbox dconf axle_count now hub i hi
    cases hfind : tr.tracks.find? (fun x => trackMatches bbox x.2) with
    | some e =>
      obtain ⟨-, hn, hids⟩ := hsome tr did bbox dconf axle_count now e hfind
      rw [hids] at hi
      rw [hn]
      exact hub i hi
    | none =>
      obtain ⟨-, hn, hids⟩ := hnone tr did bbox dconf axle_count now hfind
      rw [hids] at hi
      rw [hn]
      rcases List.mem_append.mp hi with h | h
      · exact Nat.lt_succ_of_lt (hub i h)
      · simp at h
        omega
  · intro tr now age hub i hi
    rw [show (tr.cleanup_old_tracks now age).next_id = tr.next_id from rfl]
    apply hub
    simp only [VehicleTracker.cleanup_old_tracks] at hi
    rcases List.mem_map.mp hi with ⟨e, he, rfl⟩
    exact List.mem_map.mpr ⟨e, List.mem_of_mem_filter he, rfl⟩

/-- Witness for C4 on an empty registry: no track matches, so a fresh
track with id `next_id = 0` is created and the counter moves to 1. -/
theorem get_track_spec_witness :
    ((VehicleTracker.mk [] 0).tracks.find?
        (fun x => trackMatches ⟨0, 0, 10, 10⟩ x.2) = none) ∧
    ((VehicleTracker.mk [] 0).get_track 0 ⟨0, 0, 10, 10⟩ 1 2 0).1.track_id = 0 ∧
    ((VehicleTracker.mk [] 0).get_track 0 ⟨0, 0, 10, 10⟩ 1 2 0).2.next_id = 1 :=
  ⟨rfl,
    (get_track_spec.2.1 (VehicleTracker.mk [] 0) 0 ⟨0, 0, 10, 10⟩ 1 2 0 rfl).1,
    (get_track_spec.2.1 (VehicleTracker.mk [] 0) 0 ⟨0, 0, 10, 10⟩ 1 2 0 rfl).2.1⟩

/-! ### C6: attempt budget and the exhaustion lock -/

/-- A sequence of `update_plate` calls on one track, one per OCR
candidate (the repeated per-frame recognition attempts). -/
def run_updates (t : VehicleTrack) (cs : List (String × ℚ)) : VehicleTrack :=
  cs.foldl (fun acc c => (acc.update_plate c.1 c.2 none).2) t

/-- Behaviour of a run of `update_plate` calls whose confidences all stay
below `OCR_CONFIDENCE_THRESHOLD`: attempts accumulate, the best pair is
the running maximum (kept from the first strict improvement), and
reaching the attempt cap forces the lock. -/
theorem run_updates_subthreshold (cs : List (String × ℚ)) :
    ∀ t : VehicleTrack, (∀ c ∈ cs, c.2 < OCR_CONFIDENCE_THRESHOLD) →
    (run_updates t cs).ocr_attempts = t.ocr_attempts + cs.length ∧
    (run_updates t cs).max_ocr_attempts = t.max_ocr_attempts ∧
    (run_updates t cs).best_ocr_confidence =
      cs.foldl (fun b c => max b c.2) t.best_ocr_confidence ∧
    (((run_updates t cs).license_plate = t.license_plate ∧
        (run_updates t cs).best_ocr_confidence = t.best_ocr_confidence) ∨
      (((run_updates t cs).license_plate,
          (run_updates t cs).best_ocr_confidence) ∈ cs ∧
        t.best_ocr_confidence < (run_updates t cs).best_ocr_confidence)) ∧
    (cs ≠ [] → t.ocr_attempts + cs.length ≥ t.max_ocr_attempts →
      (run_updates t cs).processing_complete = true ∧
      (run_updates t cs).state = "LOCKED") := by
  induction cs with
  | nil =>
    intro t _
    refine ⟨rfl, rfl, rfl, Or.inl ⟨rfl, rfl⟩, fun h => absurd rfl h⟩
  | cons c rest ih =>
    intro t hsub
    have hc : c.2 < OCR_CONFIDENCE_THRESHOLD := hsub c (List.mem_cons_self _ _)
    have hrest : ∀ x ∈ rest, x.2 < OCR_CONFIDENCE_THRESHOLD :=
      fun x hx => hsub x (List.mem_cons_of_mem _ hx)
    have hrun : run_updates t (c :: rest) =
        run_updates (t.update_plate c.1 c.2 none).2 rest := rfl
    obtain ⟨sa, sm, sb, sp⟩ := update_plate_fields t c.1 c.2 none
    obtain ⟨ia, im, ib, ip, il⟩ := ih (t.update_plate c.1 c.2 none).2 hrest
    rw [hrun]
    refine ⟨?_, ?_, ?_, ?_, ?_⟩
    · rw [ia, sa]
      simp only [List.length_cons]
      omega
    · rw [im, sm]
    · rw [ib, sb]
      rfl
    · rcases sp with ⟨sp1, sp2⟩ | ⟨sp1, sp2, sp3⟩
      · rcases ip with ⟨ip1, ip2⟩ | ⟨ip1, ip2⟩
        · exact Or.inl ⟨by rw [ip1, sp1], by rw [ip2, sp2]⟩
        · exact Or.inr ⟨List.mem_cons_of_mem _ ip1, by rw [← sp2]; exact ip2⟩
      · rcases ip with ⟨ip1, ip2⟩ | ⟨ip1, ip2⟩
        · refine Or.inr ⟨?_, ?_⟩
          · have : ((run_updates (t.update_plate c.1 c.2 none).2 rest).license_plate,
                (run_updates (t.update_plate c.1 c.2 none).2 rest).best_ocr_confidence) =
                (c.1, c.2) := by rw [ip1, ip2, sp1, sp2]
            rw [this]
            exact List.mem_cons_self _ _
          · rw [ip2, sp2]
            exact sp3
        · refine Or.inr ⟨List.mem_cons_of_mem _ ip1, lt_trans ?_ ip2⟩
          rw [sp2]
          exact sp3
    · intro _ hge
      rcases List.eq_nil_or_concat rest with hr | _
      · subst hr
        have hm : t.ocr_attempts + 1 ≥ t.max_ocr_attempts := by
          simp only [List.length_cons, List.length_nil] at hge
          omega
        have := update_plate_subthreshold_lock t c.1 c.2 none hc hm
        simpa [run_updates] using this
      · rcases List.eq_nil_or_concat rest with hr | hr
        · rename_i hne
          exact absurd hr (by simp_all)
        · have hne : rest ≠ [] := by
            rcases hr with ⟨l, a, rfl⟩
            simp
          refine il hne ?_
          rw [sa, sm]
          simp only [List.length_cons] at hge
          omega

/-- C6: a track processed through the orchestrator gate never exceeds its
attempt budget (`should_process` requires `ocr_attempts <
max_ocr_attempts` before each call, and each call adds exactly one); and
a fresh track fed `max_ocr_attempts` candidates all below the lock
threshold ends `LOCKED` by exhaustion, retaining the best (text,
confidence) pair seen. -/
theorem recognition_attempts_spec :
    (∀ (t : VehicleTrack) (in_roi : Bool) (text : String) (conf : ℚ)
        (img : Option Nat),
      t.should_process in_roi = true →
      (t.update_plate text conf img).2.ocr_attempts ≤
        (t.update_plate text conf img).2.max_ocr_attempts) ∧
    (∀ (id : Nat) (now : ℚ) (m : Nat) (cs : List (String × ℚ)),
      cs.length = m → 1 ≤ m →
      (∀ c ∈ cs, c.2 < OCR_CONFIDENCE_THRESHOLD) →
      (run_updates { newTrack id now with max_ocr_attempts := m } cs).state =
          "LOCKED" ∧
      (run_updates { newTrack id now with max_ocr_attempts := m }
          cs).processing_complete = true ∧
      (run_updates { newTrack id now with max_ocr_attempts := m }
          cs).ocr_attempts = m ∧
      (run_updates { newTrack id now with max_ocr_attempts := m }
          cs).best_ocr_confidence = cs.foldl (fun b c => max b c.2) 0 ∧
      (0 < (run_updates { newTrack id now with max_ocr_attempts := m }
          cs).best_ocr_confidence →
        ((run_updates { newTrack id now with max_ocr_attempts := m }
            cs).license_plate,
          (run_updates { newTrack id now with max_ocr_attempts := m }
            cs).best_ocr_confidence) ∈ cs) ∧
      ((run_updates { newTrack id now with max_ocr_attempts := m }
          cs).best_ocr_confidence ≤ 0 →
        (run_updates { newTrack id now with max_ocr_attempts := m }
          cs).license_plate = "SCANNING...")) := by
  constructor
  · intro t in_roi text conf img h
    have hlt : t.ocr_attempts < t.max_ocr_attempts := by
      by_contra hge
      simp [VehicleTrack.should_process, decide_eq_true_eq,
        Nat.le_of_not_lt hge] at h
    obtain ⟨sa, sm, -, -⟩ := update_plate_fields t text conf img
    rw [sa, sm]
    omega
  · intro id now m cs hlen hm hsub
    obtain ⟨ra, rm, rb, rp, rl⟩ := run_updates_subthreshold cs
      { newTrack id now with max_ocr_attempts := m } hsub
    have hne : cs ≠ [] := by
      intro hnil
      rw [hnil] at hlen
      simp at hlen
      omega
    have hstart : ({ newTrack id now with max_ocr_attempts := m } :
        VehicleTrack).ocr_attempts = 0 := rfl
    have hlock := rl hne (by rw [hstart, hlen]; simp [newTrack])
    refine ⟨hlock.2, hlock.1, ?_, ?_, ?_, ?_⟩
    · rw [ra, hstart, hlen]
      omega
    · rw [rb]
      rfl
    · intro hpos
      rcases rp with ⟨-, hp2⟩ | ⟨hp1, -⟩
      · rw [hp2] at hpos
        exact absurd hpos (by simp [newTrack])
      · exact hp1
    · intro hle
      rcases rp with ⟨hp1, -⟩ | ⟨-, hp2⟩
      · exact hp1
      · have : ({ newTrack id now with max_ocr_attempts := m } :
            VehicleTrack).best_ocr_confidence = 0 := rfl
        rw [this] at hp2
        exact absurd (lt_of_lt_of_le hp2 hle) (lt_irrefl 0)

/-- Witness for C6: a fresh track with budget 2 and candidates
("A", 30), ("B", 20) — both below the lock threshold 40 — ends LOCKED by
exhaustion with attempts 2, retaining ("A", 30). -/
theorem recognition_attempts_spec_witness :
    (run_updates { newTrack 0 0 with max_ocr_attempts := 2 }
        [("A", 30), ("B", 20)]).state = "LOCKED" ∧
    (run_updates { newTrack 0 0 with max_ocr_attempts := 2 }
        [("A", 30), ("B", 20)]).ocr_attempts = 2 :=
  ⟨(recognition_attempts_spec.2 0 0 2 [("A", 30), ("B", 20)] rfl
      (by norm_num) (by decide)).1,
    (recognition_attempts_spec.2 0 0 2 [("A", 30), ("B", 20)] rfl
      (by norm_num) (by decide)).2.2.1⟩

/-! ### C3 and C10: when a result is persisted / broadcast -/

/-- Inversion of the per-detection step: a persistence event can only
arise from the branch in which `update_plate` returned `True`, with the
plate image extracted and the event carrying the OCR confidence. -/
theorem process_detection_some (tr : VehicleTracker) (roi : Option BBox)
    (did : Nat) (bbox : BBox) (dconf : ℚ) (axle_count : Nat)
    (ext : Option Nat) (text : String) (conf : ℚ) (saved : Option String)
    (now : ℚ) (ev : PersistEvent)
    (h : (process_detection tr roi did bbox dconf axle_count ext text conf
        saved now).2 = some ev) :
    ∃ img, ext = some img ∧
      ((tr.get_track did bbox dconf axle_count now).1.update_plate text conf
        (some img)).1 = true ∧
      ev.confidence = conf := by
  simp only [process_detection] at h
  split at h
  · cases ext with
    | none => simp at h
    | some img =>
      refine ⟨img, rfl, ?_⟩
      split at h
      · rename_i heq
        exact absurd heq (by simp)
      · rename_i img' heq
        obtain rfl : img' = img := by
          injection heq with h'
          exact h'.symm
        split at h
        · split at h
          · rename_i hq
            split at h
            · refine ⟨hq, ?_⟩
              simp only [Option.some.injEq] at h
              rw [← h]
            · simp at h
          · simp at h
        · simp at h
  · simp at h

/-- C3 counterexample: a recognition at confidence 50 — at or below the
save threshold 75 — is persisted and broadcast by the frame step, because
the code commits on `update_plate`'s return value (threshold 40) and
never consults `SAVE_THRESHOLD`. -/
theorem save_threshold_counterexample :
    (process_detection (VehicleTracker.mk [] 0) (some ⟨0, 0, 200, 200⟩) 0
        ⟨10, 10, 30, 20⟩ (9/10) 2 (some 0) "ABC123" 50 (some "p.jpg") 0).2 =
      some ⟨0, "ABC123", 50, 2⟩ ∧
    (50 : ℚ) ≤ SAVE_THRESHOLD := by
  constructor
  · norm_num [process_detection, VehicleTracker.get_track, matchTrack,
      newTrack, VehicleTrack.update_position, calculate_intersection,
      ROI_INTERSECTION_THRESHOLD, VehicleTrack.should_process,
      VehicleTrack.update_plate, VehicleTrack.lock_plate,
      OCR_CONFIDENCE_THRESHOLD, VehicleTracker.setTrack,
      show ¬("ABC123" = "") from by decide]
  · norm_num [SAVE_THRESHOLD]

/-- C3 (amended): the frame step persists (and broadcasts) a result
exactly on the commit condition actually implemented — the OCR
confidence strictly exceeds both the track's previous best and
`OCR_CONFIDENCE_THRESHOLD = 40`; `SAVE_THRESHOLD = 75` is defined in the
configuration but never used. -/
theorem persist_event_amended (tr : VehicleTracker) (roi : Option BBox)
    (did : Nat) (bbox : BBox) (dconf : ℚ) (axle_count : Nat)
    (ext : Option Nat) (text : String) (conf : ℚ) (saved : Option String)
    (now : ℚ) (ev : PersistEvent)
    (h : (process_detection tr roi did bbox dconf axle_count ext text conf
        saved now).2 = some ev) :
    conf > (tr.get_track did bbox dconf axle_count now).1.best_ocr_confidence ∧
    conf > OCR_CONFIDENCE_THRESHOLD ∧
    ev.confidence = conf := by
  obtain ⟨img, -, htrue, hconf⟩ := process_detection_some tr roi did bbox dconf
    axle_count ext text conf saved now ev h
  obtain ⟨h1, h2⟩ := (update_plate_fst_iff _ text conf (some img)).mp htrue
  exact ⟨h1, h2, hconf⟩

/-- Witness for C3 (amended) at the concrete frame step that persists a
confidence-50 result. -/
theorem persist_event_amended_witness :
    ((process_detection (VehicleTracker.mk [] 0) (some ⟨0, 0, 200, 200⟩) 0
        ⟨10, 10, 30, 20⟩ (9/10) 2 (some 0) "ABC123" 50 (some "p.jpg") 0).2 =
      some ⟨0, "ABC123", 50, 2⟩) ∧
    (50 : ℚ) > OCR_CONFIDENCE_THRESHOLD ∧
    (PersistEvent.mk 0 "ABC123" 50 2).confidence = 50 := by
  have hev : (process_detection (VehicleTracker.mk [] 0) (some ⟨0, 0, 200, 200⟩) 0
      ⟨10, 10, 30, 20⟩ (9/10) 2 (some 0) "ABC123" 50 (some "p.jpg") 0).2 =
      some ⟨0, "ABC123", 50, 2⟩ := by
    norm_num [process_detection, VehicleTracker.get_track, matchTrack,
      newTrack, VehicleTrack.update_position, calculate_intersection,
      ROI_INTERSECTION_THRESHOLD, VehicleTrack.should_process,
      VehicleTrack.update_plate, VehicleTrack.lock_plate,
      OCR_CONFIDENCE_THRESHOLD, VehicleTracker.setTrack,
      show ¬("ABC123" = "") from by decide]
  refine ⟨hev, ?_, ?_⟩
  · exact (persist_event_amended (VehicleTracker.mk [] 0) (some ⟨0, 0, 200, 200⟩) 0
      ⟨10, 10, 30, 20⟩ (9/10) 2 (some 0) "ABC123" 50 (some "p.jpg") 0
      ⟨0, "ABC123", 50, 2⟩ hev).2.1
  · exact (persist_event_amended (VehicleTracker.mk [] 0) (some ⟨0, 0, 200, 200⟩) 0
      ⟨10, 10, 30, 20⟩ (9/10) 2 (some 0) "ABC123" 50 (some "p.jpg") 0
      ⟨0, "ABC123", 50, 2⟩ hev).2.2

/-- C10: `update_plate` returns `True` exactly when the call locks by
confidence (the new confidence strictly exceeds both the stored best and
`OCR_CONFIDENCE_THRESHOLD = 40`) — in particular the exhaustion-lock path
returns `False` — and the frame step can only emit a persistence event
out of a call that returned `True`, so a track locked by exhaustion is
never persisted or broadcast. -/
theorem update_plate_commit_spec :
    (∀ (t : VehicleTrack) (text : String) (conf : ℚ) (img : Option Nat),
      (t.update_plate text conf img).1 = true ↔
        conf > t.best_ocr_confidence ∧ conf > OCR_CONFIDENCE_THRESHOLD) ∧
    (∀ (t : VehicleTrack) (text : String) (conf : ℚ) (img : Option Nat),
      ¬ conf > OCR_CONFIDENCE_THRESHOLD →
      (t.update_plate text conf img).1 = false) ∧
    (∀ (tr : VehicleTracker) (roi : Option BBox) (did : Nat) (bbox : BBox)
        (dconf : ℚ) (axle_count : Nat) (ext : Option Nat) (text : String)
        (conf : ℚ) (saved : Option String) (now : ℚ) (ev : PersistEvent),
      (process_detection tr roi did bbox dconf axle_count ext text conf
          saved now).2 = some ev →
      ∃ img, ext = some img ∧
        ((tr.get_track did bbox dconf axle_count now).1.update_plate text conf
          (some img)).1 = true) := by
  refine ⟨update_plate_fst_iff, ?_, ?_⟩
  · intro t text conf img h40
    cases hb : (t.update_plate text conf img).1 with
    | false => rfl
    | true =>
      obtain ⟨-, h2⟩ := (update_plate_fst_iff t text conf img).mp hb
      exact absurd h2 h40
  · intro tr roi did bbox dconf axle_count ext text conf saved now ev h
    obtain ⟨img, h1, h2, -⟩ := process_detection_some tr roi did bbox dconf
      axle_count ext text conf saved now ev h
    exact ⟨img, h1, h2⟩

/-- Witness for C10: a sub-threshold (exhausting) call returns `False`,
and a strong first call returns `True`. -/
theorem update_plate_commit_spec_witness :
    (¬ (30 : ℚ) > OCR_CONFIDENCE_THRESHOLD ∧
      (({ newTrack 0 0 with max_ocr_attempts := 1 } :
        VehicleTrack).update_plate "A" 30 none).1 = false) ∧
    ((newTrack 0 0).update_plate "B" 85 none).1 = true :=
  ⟨⟨by decide,
      update_plate_commit_spec.2.1 { newTrack 0 0 with max_ocr_attempts := 1 }
        "A" 30 none (by decide)⟩,
    (update_plate_commit_spec.1 (newTrack 0 0) "B" 85 none).mpr
      ⟨by decide, by decide⟩⟩

end ALPR
